import Mathlib

/-!
Shallow embedding of the Rock-Paper-Scissors websocket server
(`src/rps_server.py`) for verification of the session/protocol core.

Modelling conventions:
* A websocket handle is a `Socket`: an open/closed flag, a script of the
  payloads the peer will deliver to `recv` (end of script = the peer's
  connection closes), and the log of messages successfully sent to it.
* Inbound payloads are modelled post-decoding: `Payload.obj move rematch`
  is a JSON object whose `.get "move"` / `.get "rematch"` yield the given
  optional values; `Payload.malformed` is data on which `json.loads`
  (or the subsequent `.get` on a non-object) raises an exception the
  server code does not catch.
* Exceptions are explicit: every operation that can raise returns
  `Except Exc _` paired with the updated state.  `Exc.connectionClosed`
  models `websockets.exceptions.ConnectionClosed`, `Exc.jsonError` the
  uncaught `json.JSONDecodeError` / `AttributeError`, `Exc.keyError` the
  `KeyError` from `wins[move1]`, and `Exc.outOfFuel` is a model artifact
  bounding the rematch recursion (the Python code recurses unboundedly).
* `asyncio.gather` of the two per-handle awaits is deterministically
  sequentialized (role A's await first, then role B's): the two
  coroutines touch disjoint state (their own socket and their own entry
  of the `players` dict), and gather lets both run to completion, so this
  ordering is observationally faithful; an exception from either is
  propagated after both have run, as gather does not undo side effects.
-/

namespace RPS

/-- Messages the server sends over a websocket, mirroring the JSON objects
built in `rps_server.py`. -/
inductive SMsg where
  | waiting (msg : String)
  | start (player : String) (msg : String)
  | yourMove (msg : String)
  | result (move1 move2 : Option String) (res : String)
  | rematch
  | ended (msg : String)
  | error (msg : String)
deriving DecidableEq, Repr

/-- An inbound payload as seen after `json.loads` and `.get`. -/
inductive Payload where
  | malformed
  | obj (move rematch : Option String)
deriving DecidableEq, Repr

/-- Exceptions the embedded code can raise (plus the fuel artifact). -/
inductive Exc where
  | connectionClosed
  | jsonError
  | keyError
  | outOfFuel
deriving DecidableEq, Repr

/-- A websocket connection handle. -/
structure Socket where
  isOpen : Bool
  script : List Payload
  sent : List SMsg
deriving DecidableEq, Repr

/-- `await websocket.recv()`: on a closed connection (or when the peer's
script is exhausted, i.e. the peer closes) raises `ConnectionClosed`. -/
def Socket.recv (s : Socket) : Except Exc Payload × Socket :=
  if s.isOpen then
    match s.script with
    | [] => (.error .connectionClosed, { s with isOpen := false })
    | p :: rest => (.ok p, { s with script := rest })
  else
    (.error .connectionClosed, s)

/-- `await websocket.send(...)`: raises `ConnectionClosed` on a closed
connection, otherwise delivers the message. -/
def Socket.send (s : Socket) (m : SMsg) : Except Exc Unit × Socket :=
  if s.isOpen then (.ok (), { s with sent := s.sent ++ [m] })
  else (.error .connectionClosed, s)

/-- The list `["rock", "paper", "scissors"]` from `receive_move`. -/
def validMoves : List String := ["rock", "paper", "scissors"]

/-- Session state: the two handles of `RockPaperScissorsGame`, the
`players` dict (`move1` is the entry keyed by `player1_ws`, `move2` the
one keyed by `player2_ws`), and the `game_over` flag. -/
structure GameState where
  player1_ws : Socket
  player2_ws : Socket
  move1 : Option String
  move2 : Option String
  game_over : Bool
deriving DecidableEq, Repr

/-- `RockPaperScissorsGame.__init__`: both `players` entries `None`,
`game_over = False`. -/
def initGame (p1 p2 : Socket) : GameState :=
  { player1_ws := p1, player2_ws := p2, move1 := none, move2 := none,
    game_over := false }

/-- A freshly connected handle with a given peer script. -/
def mkSocket (script : List Payload) : Socket :=
  { isOpen := true, script := script, sent := [] }

/-- Convenience: a fresh session over two fresh handles. -/
def mkGame (s1 s2 : List Payload) : GameState :=
  initGame (mkSocket s1) (mkSocket s2)

/-- `RockPaperScissorsGame.receive_move(websocket)` acting on one handle
and its `players` entry.  Returns the boolean result (or an uncaught
exception), the updated socket, and the updated `players` entry.
Only `ConnectionClosed` is caught by the `try`; a malformed payload
raises through (`json.loads` / `.get` failure). -/
def receive_move (sock : Socket) (stored : Option String) :
    Except Exc Bool × Socket × Option String :=
  match sock.recv with
  | (.error .connectionClosed, sock') => (.ok false, sock', stored)
  | (.error e, sock') => (.error e, sock', stored)
  | (.ok .malformed, sock') => (.error .jsonError, sock', stored)
  | (.ok (.obj move _), sock') =>
    if move.elim false (fun m => m ∈ validMoves) then
      (.ok true, sock', move)
    else
      match sock'.send (.error "Invalid move") with
      | (.error .connectionClosed, sock'') => (.ok false, sock'', stored)
      | (.error e, sock'') => (.error e, sock'', stored)
      | (.ok _, sock'') => (.ok false, sock'', stored)

/-- `RockPaperScissorsGame.receive_response(websocket)`: `True` exactly
when the payload's `rematch` field equals `"yes"`; `ConnectionClosed` is
caught and yields `False`; malformed data raises through. -/
def receive_response (sock : Socket) : Except Exc Bool × Socket :=
  match sock.recv with
  | (.error .connectionClosed, sock') => (.ok false, sock')
  | (.error e, sock') => (.error e, sock')
  | (.ok .malformed, sock') => (.error .jsonError, sock')
  | (.ok (.obj _ rem), sock') =>
    (.ok (if rem = some "yes" then true else false), sock')

/-- The `wins` dict of `get_result`; `none` models a key miss. -/
def wins (move : Option String) : Option String :=
  if move = some "rock" then some "scissors"
  else if move = some "scissors" then some "paper"
  else if move = some "paper" then some "rock"
  else none

/-- `RockPaperScissorsGame.get_result(move1, move2)`.  The arguments are
the raw `players` entries (optional strings); `wins[move1]` raising
`KeyError` on an unknown key is modelled by `Exc.keyError`. -/
def get_result (move1 move2 : Option String) : Except Exc String :=
  if move1 = move2 then .ok "draw"
  else
    match wins move1 with
    | none => .error .keyError
    | some w => .ok (if some w = move2 then "player1" else "player2")

/-- `RockPaperScissorsGame.broadcast(message)`: sends to `player1_ws`
first, then to `player2_ws`; a raise from the first send skips the
second entirely. -/
def broadcast (st : GameState) (m : SMsg) : Except Exc Unit × GameState :=
  match st.player1_ws.send m with
  | (.error e, p1) => (.error e, { st with player1_ws := p1 })
  | (.ok _, p1) =>
    match st.player2_ws.send m with
    | (.error e, p2) => (.error e, { st with player1_ws := p1, player2_ws := p2 })
    | (.ok _, p2) => (.ok (), { st with player1_ws := p1, player2_ws := p2 })

/-- `RockPaperScissorsGame.determine_winner()`: computes the result of
the two stored moves, broadcasts it, then sets `game_over`. -/
def determine_winner (st : GameState) : Except Exc Unit × GameState :=
  match get_result st.move1 st.move2 with
  | .error e => (.error e, st)
  | .ok result =>
    match broadcast st (.result st.move1 st.move2 result) with
    | (.error e, st') => (.error e, st')
    | (.ok _, st') => (.ok (), { st' with game_over := true })

/-- The `asyncio.gather(receive_move(p1), receive_move(p2))` step of
`game_loop`, sequentialized as described in the header. -/
def collect_moves (st : GameState) : Except Exc (Bool × Bool) × GameState :=
  match receive_move st.player1_ws st.move1 with
  | (r1, p1, m1) =>
    match receive_move st.player2_ws st.move2 with
    | (r2, p2, m2) =>
      let st' := { st with player1_ws := p1, player2_ws := p2,
                           move1 := m1, move2 := m2 }
      match r1, r2 with
      | .ok b1, .ok b2 => (.ok (b1, b2), st')
      | .error e, _ => (.error e, st')
      | .ok _, .error e => (.error e, st')

/-- `RockPaperScissorsGame.reset_game()`. -/
def reset_game (st : GameState) : GameState :=
  { st with move1 := none, move2 := none, game_over := false }

/-- The `your_move` prompt text sent in `game_loop`. -/
def movePrompt : String := "Enter your move (rock, paper, or scissors):"

mutual

/-- `start_game(game)`: sends the two `start` notices (role assignment),
then enters `game_loop`.  `fuel` bounds the rematch recursion depth. -/
def start_game (fuel : Nat) (st : GameState) : Except Exc Unit × GameState :=
  match st.player1_ws.send (.start "player1" "Game started. You are Player 1") with
  | (.error e, p1) => (.error e, { st with player1_ws := p1 })
  | (.ok _, p1) =>
    match st.player2_ws.send (.start "player2" "Game started. You are Player 2") with
    | (.error e, p2) => (.error e, { st with player1_ws := p1, player2_ws := p2 })
    | (.ok _, p2) => game_loop fuel { st with player1_ws := p1, player2_ws := p2 }
termination_by 3 * fuel + 2

/-- `game_loop(game)`: the `while not game.game_over` loop.  Every path
through the body ends in `break`, so the loop runs its body at most once
and then falls through to `ask_for_rematch()` unconditionally — also on
the error path. -/
def game_loop (fuel : Nat) (st : GameState) : Except Exc Unit × GameState :=
  if st.game_over then ask_for_rematch fuel st
  else
    match st.player1_ws.send (.yourMove movePrompt) with
    | (.error e, p1) => (.error e, { st with player1_ws := p1 })
    | (.ok _, p1) =>
      match st.player2_ws.send (.yourMove movePrompt) with
      | (.error e, p2) => (.error e, { st with player1_ws := p1, player2_ws := p2 })
      | (.ok _, p2) =>
        match collect_moves { st with player1_ws := p1, player2_ws := p2 } with
        | (.error e, st2) => (.error e, st2)
        | (.ok (r1, r2), st2) =>
          if r1 && r2 then
            match determine_winner st2 with
            | (.error e, st3) => (.error e, st3)
            | (.ok _, st3) => ask_for_rematch fuel st3
          else
            match broadcast st2 (.error "A player disconnected or made an invalid move.") with
            | (.error e, st3) => (.error e, st3)
            | (.ok _, st3) => ask_for_rematch fuel st3
termination_by 3 * fuel + 1

/-- `RockPaperScissorsGame.ask_for_rematch()`: broadcasts the `rematch`
prompt, gathers the two responses, and either resets and re-runs
`start_game` (both `"yes"`) or broadcasts the `end` notice. -/
def ask_for_rematch (fuel : Nat) (st : GameState) : Except Exc Unit × GameState :=
  match broadcast st .rematch with
  | (.error e, st1) => (.error e, st1)
  | (.ok _, st1) =>
    match receive_response st1.player1_ws with
    | (r1, p1) =>
      match receive_response st1.player2_ws with
      | (r2, p2) =>
        let st2 := { st1 with player1_ws := p1, player2_ws := p2 }
        match r1, r2 with
        | .error e, _ => (.error e, st2)
        | .ok _, .error e => (.error e, st2)
        | .ok b1, .ok b2 =>
          if b1 && b2 then
            match fuel with
            | 0 => (.error .outOfFuel, reset_game st2)
            | n + 1 => start_game n (reset_game st2)
          else
            broadcast st2 (.ended "Game over.")
termination_by 3 * fuel

end

/-- `waiting_players.append(websocket)` in `handler`. -/
def enqueue {α : Type} (q : List α) (h : α) : List α := q ++ [h]

/-- `waiting_players.pop(0)` in `handler` (guarded by `if waiting_players:`). -/
def dequeue {α : Type} (q : List α) : Option (α × List α) :=
  match q with
  | [] => none
  | h :: t => some (h, t)

/-- The `finally` block of `handler`: `if websocket in waiting_players:
waiting_players.remove(websocket)` (removes the first occurrence). -/
def remove_waiting {α : Type} [DecidableEq α] (q : List α) (h : α) : List α :=
  if h ∈ q then q.erase h else q

/-- Events the matchmaking queue undergoes after a handle `h` has left
it: later arrivals enqueue fresh handles (≠ h, since h's connection is
closed and websocket objects are unique per connection), and pairing
events dequeue the head. -/
inductive QStep {α : Type} (h : α) : List α → List α → Prop
  | enq (q : List α) (x : α) : x ≠ h → QStep h q (enqueue q x)
  | deq (q q' : List α) (x : α) : dequeue q = some (x, q') → QStep h q q'

/-- Spec-side cyclic beating relation: rock beats scissors, scissors
beats paper, paper beats rock (for comparison against `get_result`). -/
def beats (x y : String) : Bool :=
  (x = "rock" && y = "scissors") || (x = "scissors" && y = "paper") ||
    (x = "paper" && y = "rock")

end RPS

namespace RPS

/-- Messages of one full successful round as delivered to one handle by
`start_game` + `game_loop` when both players pick rock: its start notice,
the move prompt, the draw result, and the rematch prompt. -/
def roundLog (p pm : String) : List SMsg :=
  [.start p pm, .yourMove movePrompt,
   .result (some "rock") (some "rock") "draw", .rematch]

/-- Peer behaviour answering the move prompt with rock and the rematch
prompt with yes, `n` times, then rock and a final no. -/
def yesScript : Nat → List Payload
  | 0 => [.obj (some "rock") none, .obj none (some "no")]
  | n + 1 => .obj (some "rock") none :: .obj none (some "yes") :: yesScript n

/-- Full message log one handle receives over a session driven by
`yesScript n`: `n + 1` rounds, each with its own start notice, then the
end notice. -/
def sessionLog (p pm : String) : Nat → List SMsg
  | 0 => roundLog p pm ++ [.ended "Game over."]
  | n + 1 => roundLog p pm ++ sessionLog p pm n

/-- Recognizes a start notice. -/
def isStart : SMsg → Bool
  | .start _ _ => true
  | _ => false

/-- Recognizes a move prompt. -/
def isYourMove : SMsg → Bool
  | .yourMove _ => true
  | _ => false

/-- Recognizes an end notice. -/
def isEnded : SMsg → Bool
  | .ended _ => true
  | _ => false

/-- Session whose role-A peer closes before sending a move while role B
sends rock. -/
def demoDisconnect : GameState := mkGame [] [.obj (some "rock") none]

/-- Session whose role-A peer sends the illegal move lizard while role B
sends rock. -/
def demoInvalid : GameState :=
  mkGame [.obj (some "lizard") none] [.obj (some "rock") none]

/-- Session poised at the rematch offer: role A's connection closes
before answering, role B answers yes. -/
def demoRematchClosed : GameState :=
  { player1_ws := mkSocket [], player2_ws := mkSocket [.obj none (some "yes")],
    move1 := some "rock", move2 := some "rock", game_over := true }

/-- Session poised at the rematch offer: role A answers no, role B
answers yes, both connections stay open. -/
def demoRematchNo : GameState :=
  { player1_ws := mkSocket [.obj none (some "no")],
    player2_ws := mkSocket [.obj none (some "yes")],
    move1 := some "rock", move2 := some "rock", game_over := true }

/-- Session state after both moves were collected: rock stored for role
A, scissors for role B, both handles open. -/
def demoResolve : GameState :=
  { mkGame [] [] with move1 := some "rock", move2 := some "scissors" }

/-- Peer behaviour for claim C2's counterexample: one agreed rematch,
then a declined one. -/
def yesOnce : List Payload :=
  [.obj (some "rock") none, .obj none (some "yes"),
   .obj (some "rock") none, .obj none (some "no")]

end RPS

deriving instance DecidableEq for Except

namespace RPS

/-- A failed `receive_move` (result `False`) leaves the stored entry of
the `players` dict untouched. -/
theorem receive_move_false_keeps (sock : Socket) (stored m : Option String)
    (p : Socket) (h : receive_move sock stored = (.ok false, p, m)) : m = stored := by
  obtain ⟨o, scr, snt⟩ := sock
  cases o with
  | false => simp [receive_move, Socket.recv] at h; exact h.2.symm
  | true =>
    rcases scr with _ | ⟨pl, rest⟩
    · simp [receive_move, Socket.recv] at h; exact h.2.symm
    · rcases pl with _ | ⟨move, rem⟩
      · simp [receive_move, Socket.recv] at h
      · by_cases hm : move.elim false (fun s => s ∈ validMoves)
        · simp [receive_move, Socket.recv, hm] at h
        · simp [receive_move, Socket.recv, Socket.send, hm] at h
          exact h.2.symm

/-- A `QStep` away from a queue not containing `h` cannot introduce `h`. -/
theorem qstep_preserves {α : Type} {h : α} {q q' : List α}
    (hnot : h ∉ q) (hs : QStep h q q') : h ∉ q' := by
  cases hs with
  | enq x hx =>
    simp only [enqueue, List.mem_append, List.mem_singleton]
    rintro (hq | rfl)
    · exact hnot hq
    · exact hx rfl
  | deq q0 x hd =>
    cases q with
    | nil => simp [dequeue] at hd
    | cons a t =>
      simp only [dequeue, Option.some.injEq, Prod.mk.injEq] at hd
      intro hmem
      exact hnot (by rw [← hd.2] at hmem; exact List.mem_cons_of_mem a hmem)

/-- Absence from the queue is preserved along any sequence of queue
events. -/
theorem qsteps_preserve {α : Type} {h : α} {q q' : List α} (hnot : h ∉ q)
    (hs : Relation.ReflTransGen (QStep h) q q') : h ∉ q' := by
  induction hs with
  | refl => exact hnot
  | tail _ step ih => exact qstep_preserves ih step

/-- A dequeued element was a member of the queue. -/
theorem dequeue_mem {α : Type} {q q' : List α} {x : α}
    (hd : dequeue q = some (x, q')) : x ∈ q := by
  cases q with
  | nil => simp [dequeue] at hd
  | cons a t =>
    simp only [dequeue, Option.some.injEq, Prod.mk.injEq] at hd
    rw [← hd.1]
    exact List.mem_cons_self a t

/-- One agreed rematch round: a session whose two peers both answer rock
then yes reduces to the same session one round later, with the round's
messages appended to each log — in particular `start_game` is invoked
again, re-sending the start notices. -/
theorem round_step (fuel : Nat) (r1 r2 : List Payload) (s1 s2 : List SMsg)
    (mv1 mv2 : Option String) :
    start_game (fuel + 1)
      ⟨⟨true, .obj (some "rock") none :: .obj none (some "yes") :: r1, s1⟩,
       ⟨true, .obj (some "rock") none :: .obj none (some "yes") :: r2, s2⟩,
       mv1, mv2, false⟩ =
    start_game fuel
      ⟨⟨true, r1, s1 ++ roundLog "player1" "Game started. You are Player 1"⟩,
       ⟨true, r2, s2 ++ roundLog "player2" "Game started. You are Player 2"⟩,
       none, none, false⟩ := by
  conv_lhs => rw [start_game.eq_def]
  simp only [Socket.send]
  simp
  conv_lhs => rw [game_loop.eq_def]
  simp [collect_moves, receive_move, receive_response, Socket.recv, Socket.send,
    determine_winner, get_result, wins, broadcast, validMoves, movePrompt]
  conv_lhs => rw [ask_for_rematch.eq_def]
  simp [receive_response, Socket.recv, Socket.send, broadcast, reset_game,
    roundLog, movePrompt]

/-- Closed form of a session whose peers agree to `n` rematches and then
decline: it ends normally and each handle's log is `sessionLog n`. -/
theorem yes_run (n : Nat) :
    ∀ (s1 s2 : List SMsg) (mv1 mv2 : Option String),
      start_game (n + 1)
        ⟨⟨true, yesScript n, s1⟩, ⟨true, yesScript n, s2⟩, mv1, mv2, false⟩ =
      (.ok (),
       ⟨⟨true, [], s1 ++ sessionLog "player1" "Game started. You are Player 1" n⟩,
        ⟨true, [], s2 ++ sessionLog "player2" "Game started. You are Player 2" n⟩,
        some "rock", some "rock", true⟩) := by
  induction n with
  | zero =>
    intro s1 s2 mv1 mv2
    conv_lhs => rw [start_game.eq_def]
    simp only [yesScript, Socket.send]
    simp
    conv_lhs => rw [game_loop.eq_def]
    simp [collect_moves, receive_move, receive_response, Socket.recv, Socket.send,
      determine_winner, get_result, wins, broadcast, validMoves, movePrompt]
    conv_lhs => rw [ask_for_rematch.eq_def]
    simp [receive_response, Socket.recv, Socket.send, broadcast, reset_game,
      sessionLog, roundLog, movePrompt]
  | succ k ih =>
    intro s1 s2 mv1 mv2
    simp only [yesScript]
    rw [round_step (k + 1) (yesScript k) (yesScript k) s1 s2 mv1 mv2, ih]
    simp [sessionLog, roundLog, List.append_assoc]

/-- Message counts of the log of a `yesScript n` session: `n + 1` start
notices, `n + 1` move prompts, one end notice. -/
theorem sessionLog_counts (p pm : String) (n : Nat) :
    (sessionLog p pm n).countP isStart = n + 1 ∧
    (sessionLog p pm n).countP isYourMove = n + 1 ∧
    (sessionLog p pm n).countP isEnded = 1 := by
  induction n with
  | zero =>
    simp [sessionLog, roundLog, isStart, isYourMove, isEnded, List.countP_cons,
      List.countP_append]
  | succ k ih =>
    simp [sessionLog, roundLog, isStart, isYourMove, isEnded, List.countP_cons,
      List.countP_append, ih.1, ih.2.1, ih.2.2]

end RPS

namespace RPS

/-- C3: on legal choices, `get_result` maps equal choices to draw and
distinct choices to player1 exactly when the first beats the second
under the fixed cycle (rock > scissors > paper > rock), otherwise
player2; concretely rock vs scissors is player1, scissors vs rock is
player2, paper vs paper is draw. -/
theorem claim_C3 (x y : String) (hx : x ∈ validMoves) (hy : y ∈ validMoves) :
    get_result (some x) (some x) = .ok "draw" ∧
    (x ≠ y →
      get_result (some x) (some y) =
        .ok (if beats x y then "player1" else "player2")) ∧
    get_result (some "rock") (some "scissors") = .ok "player1" ∧
    get_result (some "scissors") (some "rock") = .ok "player2" ∧
    get_result (some "paper") (some "paper") = .ok "draw" := by
  refine ⟨by simp [get_result], ?_, by decide, by decide, by decide⟩
  simp only [validMoves, List.mem_cons, List.not_mem_nil, or_false] at hx hy
  rcases hx with rfl | rfl | rfl <;> rcases hy with rfl | rfl | rfl <;>
    intro hxy <;> first | (exact absurd rfl hxy) | decide

/-- C3 witness: the theorem applied at rock, scissors. -/
theorem claim_C3_witness :
    "rock" ∈ validMoves ∧ get_result (some "rock") (some "rock") = .ok "draw" :=
  ⟨by decide, (claim_C3 "rock" "scissors" (by decide) (by decide)).1⟩

/-- C10: on distinct legal choices `get_result` is antisymmetric
(player1 one way iff player2 the other) and never draw; on any legal
pair it returns one of player1, player2, draw. -/
theorem claim_C10 (x y : String) (hx : x ∈ validMoves) (hy : y ∈ validMoves) :
    (x ≠ y →
      ((get_result (some x) (some y) = .ok "player1" ↔
        get_result (some y) (some x) = .ok "player2") ∧
       get_result (some x) (some y) ≠ .ok "draw")) ∧
    get_result (some x) (some y) ∈
      [Except.ok "player1", Except.ok "player2", Except.ok "draw"] := by
  simp only [validMoves, List.mem_cons, List.not_mem_nil, or_false] at hx hy
  rcases hx with rfl | rfl | rfl <;> rcases hy with rfl | rfl | rfl <;>
    refine ⟨fun hxy => ?_, by decide⟩ <;> first | (exact absurd rfl hxy) | decide

/-- C10 witness: the theorem applied at rock, scissors. -/
theorem claim_C10_witness :
    "rock" ∈ validMoves ∧
    get_result (some "rock") (some "scissors") ∈
      [Except.ok "player1", Except.ok "player2", Except.ok "draw"] :=
  ⟨by decide, (claim_C10 "rock" "scissors" (by decide) (by decide)).2⟩

/-- C5: whenever both collections succeeded (legal moves stored, handles
open), `determine_winner` returns normally, appends exactly one result
message carrying both stored choices and the resolver's outcome to each
handle's log, and sets the terminal flag; concretely with rock stored
for role A and scissors for role B the message delivered to both handles
is result rock scissors player1. -/
theorem claim_C5 (st : GameState) (m1 m2 : String)
    (h1 : st.move1 = some m1) (h2 : st.move2 = some m2)
    (hm1 : m1 ∈ validMoves) (hm2 : m2 ∈ validMoves)
    (ho1 : st.player1_ws.isOpen = true) (ho2 : st.player2_ws.isOpen = true) :
    (∃ r, get_result (some m1) (some m2) = .ok r ∧
      (determine_winner st).1 = .ok () ∧
      (determine_winner st).2.game_over = true ∧
      (determine_winner st).2.player1_ws.sent =
        st.player1_ws.sent ++ [.result (some m1) (some m2) r] ∧
      (determine_winner st).2.player2_ws.sent =
        st.player2_ws.sent ++ [.result (some m1) (some m2) r]) ∧
    ((determine_winner demoResolve).1 = .ok () ∧
      (determine_winner demoResolve).2.player1_ws.sent =
        [.result (some "rock") (some "scissors") "player1"] ∧
      (determine_winner demoResolve).2.player2_ws.sent =
        [.result (some "rock") (some "scissors") "player1"] ∧
      (determine_winner demoResolve).2.game_over = true) := by
  constructor
  · simp only [validMoves, List.mem_cons, List.not_mem_nil, or_false] at hm1 hm2
    rcases hm1 with rfl | rfl | rfl <;> rcases hm2 with rfl | rfl | rfl <;>
      exact ⟨_, rfl,
        by simp [determine_winner, get_result, wins, broadcast, Socket.send, h1, h2, ho1, ho2],
        by simp [determine_winner, get_result, wins, broadcast, Socket.send, h1, h2, ho1, ho2],
        by simp [determine_winner, get_result, wins, broadcast, Socket.send, h1, h2, ho1, ho2],
        by simp [determine_winner, get_result, wins, broadcast, Socket.send, h1, h2, ho1, ho2]⟩
  · exact ⟨rfl, rfl, rfl, rfl⟩

/-- C5 witness: the theorem applied at the rock-vs-scissors state. -/
theorem claim_C5_witness :
    "rock" ∈ validMoves ∧
    (determine_winner demoResolve).2.game_over = true :=
  ⟨by decide,
   (claim_C5 demoResolve "rock" "scissors" rfl rfl (by decide) (by decide)
      rfl rfl).2.2.2.2⟩

/-- C8: the `players` entry updated by `receive_move` is always `None`
or a legal choice (given it was so before), and a payload whose move
field fails validation leaves the entry unchanged. -/
theorem claim_C8 (sock : Socket) (stored : Option String)
    (hstored : stored = none ∨ ∃ m ∈ validMoves, stored = some m) :
    ((receive_move sock stored).2.2 = none ∨
      ∃ m ∈ validMoves, (receive_move sock stored).2.2 = some m) ∧
    (∀ move rem rest,
      sock.script = .obj move rem :: rest →
      move.elim false (fun s => s ∈ validMoves) = false →
      (receive_move sock stored).2.2 = stored) := by
  obtain ⟨o, scr, snt⟩ := sock
  constructor
  · cases o with
    | false => simpa [receive_move, Socket.recv] using hstored
    | true =>
      rcases scr with _ | ⟨pl, rest⟩
      · simpa [receive_move, Socket.recv] using hstored
      · rcases pl with _ | ⟨move, rem⟩
        · simpa [receive_move, Socket.recv] using hstored
        · by_cases hm : move.elim false (fun s => s ∈ validMoves)
          · right
            match move, hm with
            | some m, hm =>
              exact ⟨m, by simpa using hm, by simp [receive_move, Socket.recv, hm]⟩
          · simpa [receive_move, Socket.recv, Socket.send, hm] using hstored
  · intro move rem rest hscr hm
    simp only at hscr
    subst hscr
    cases o with
    | false => simp [receive_move, Socket.recv]
    | true => simp [receive_move, Socket.recv, Socket.send, hm]

/-- C8 witness: the theorem applied at a socket offering the illegal
move lizard, with an empty stored entry. -/
theorem claim_C8_witness :
    (receive_move (mkSocket [.obj (some "lizard") none]) none).2.2 = none ∨
      ∃ m ∈ validMoves,
        (receive_move (mkSocket [.obj (some "lizard") none]) none).2.2 = some m :=
  (claim_C8 (mkSocket [.obj (some "lizard") none]) none (Or.inl rfl)).1

/-- C9: when the gathered move collection returns `False` for a handle,
that handle's `players` entry is unchanged — and each entry depends only
on its own handle's collection, so a failure on one side never touches
the other side's entry. -/
theorem claim_C9 (st : GameState) (r1 r2 : Bool) (st' : GameState)
    (h : collect_moves st = (.ok (r1, r2), st')) :
    (r1 = false → st'.move1 = st.move1) ∧ (r2 = false → st'.move2 = st.move2) := by
  rcases h1 : receive_move st.player1_ws st.move1 with ⟨a1, p1, m1⟩
  rcases h2 : receive_move st.player2_ws st.move2 with ⟨a2, p2, m2⟩
  simp only [collect_moves, h1, h2] at h
  cases a1 with
  | error e => cases a2 <;> simp at h
  | ok b1 =>
    cases a2 with
    | error e => simp at h
    | ok b2 =>
      simp only [Prod.mk.injEq, Except.ok.injEq] at h
      obtain ⟨⟨hb1, hb2⟩, hst⟩ := h
      subst hst
      constructor
      · intro hr1
        have : b1 = false := by rw [hb1, hr1]
        subst this
        exact receive_move_false_keeps _ _ _ _ h1
      · intro hr2
        have : b2 = false := by rw [hb2, hr2]
        subst this
        exact receive_move_false_keeps _ _ _ _ h2

/-- C9 witness: the theorem applied at the disconnect-mid-move state,
whose collection yields `False` for role A. -/
theorem claim_C9_witness :
    (collect_moves demoDisconnect).2.move1 = demoDisconnect.move1 :=
  (claim_C9 demoDisconnect false true (collect_moves demoDisconnect).2 rfl).1 rfl

end RPS

namespace RPS

/-- C1: evaluation of the code at the failing inputs.  When role A's
connection closes during move collection, the error broadcast raises on
role A's closed handle before anything is sent to role B, so the
surviving peer receives zero error messages (its full log is just the
start notice and the move prompt); no outcome is computed.  When role A
instead sends an illegal move, the session still sends a rematch prompt
to both handles after the error broadcast, because `game_loop` falls
through to `ask_for_rematch` unconditionally. -/
theorem claim_C1_bug :
    (start_game 1 demoDisconnect).1 = .error .connectionClosed ∧
    (start_game 1 demoDisconnect).2.player2_ws.sent =
      [.start "player2" "Game started. You are Player 2", .yourMove movePrompt] ∧
    (start_game 1 demoDisconnect).2.game_over = false ∧
    (start_game 1 demoInvalid).2.player2_ws.sent =
      [.start "player2" "Game started. You are Player 2", .yourMove movePrompt,
       .error "A player disconnected or made an invalid move.", .rematch] := by
  refine ⟨?_, ?_, ?_, ?_⟩ <;>
    simp [start_game, game_loop, ask_for_rematch, collect_moves, receive_move,
      receive_response, determine_winner, get_result, wins, broadcast, Socket.send,
      Socket.recv, reset_game, validMoves, mkGame, mkSocket, initGame,
      demoDisconnect, demoInvalid, movePrompt]

/-- C2 counterexample: with a single agreed rematch (N = 1) each handle
receives the start notice twice — it is re-sent on the rematch restart,
refuting the claim that start is sent exactly once per session. -/
theorem claim_C2_counterexample :
    (start_game 2 (mkGame yesOnce yesOnce)).1 = .ok () ∧
    ((start_game 2 (mkGame yesOnce yesOnce)).2.player1_ws.sent.countP isStart) = 2 ∧
    ((start_game 2 (mkGame yesOnce yesOnce)).2.player2_ws.sent.countP isStart) = 2 := by
  have hl1 :
      (start_game 2 (mkGame yesOnce yesOnce)).2.player1_ws.sent =
        [.start "player1" "Game started. You are Player 1", .yourMove movePrompt,
         .result (some "rock") (some "rock") "draw", .rematch,
         .start "player1" "Game started. You are Player 1", .yourMove movePrompt,
         .result (some "rock") (some "rock") "draw", .rematch,
         .ended "Game over."] := by
    simp [start_game, game_loop, ask_for_rematch, collect_moves, receive_move,
      receive_response, determine_winner, get_result, wins, broadcast, Socket.send,
      Socket.recv, reset_game, validMoves, mkGame, mkSocket, initGame, yesOnce,
      movePrompt]
  have hl2 :
      (start_game 2 (mkGame yesOnce yesOnce)).2.player2_ws.sent =
        [.start "player2" "Game started. You are Player 2", .yourMove movePrompt,
         .result (some "rock") (some "rock") "draw", .rematch,
         .start "player2" "Game started. You are Player 2", .yourMove movePrompt,
         .result (some "rock") (some "rock") "draw", .rematch,
         .ended "Game over."] := by
    simp [start_game, game_loop, ask_for_rematch, collect_moves, receive_move,
      receive_response, determine_winner, get_result, wins, broadcast, Socket.send,
      Socket.recv, reset_game, validMoves, mkGame, mkSocket, initGame, yesOnce,
      movePrompt]
  refine ⟨?_, ?_, ?_⟩
  · simp [start_game, game_loop, ask_for_rematch, collect_moves, receive_move,
      receive_response, determine_winner, get_result, wins, broadcast, Socket.send,
      Socket.recv, reset_game, validMoves, mkGame, mkSocket, initGame, yesOnce,
      movePrompt]
  · rw [hl1]; decide
  · rw [hl2]; decide

/-- C2 amended: if both peers answer yes N times in a row, the session
executes N + 1 move-collection rounds, but the start notice is re-sent
on every rematch restart, so each handle receives it N + 1 times (not
once); the end notice is sent once. -/
theorem claim_C2_amended (n : Nat) :
    (start_game (n + 1) (mkGame (yesScript n) (yesScript n))).1 = .ok () ∧
    (start_game (n + 1) (mkGame (yesScript n) (yesScript n))).2.player1_ws.sent.countP
      isStart = n + 1 ∧
    (start_game (n + 1) (mkGame (yesScript n) (yesScript n))).2.player2_ws.sent.countP
      isStart = n + 1 ∧
    (start_game (n + 1) (mkGame (yesScript n) (yesScript n))).2.player1_ws.sent.countP
      isYourMove = n + 1 ∧
    (start_game (n + 1) (mkGame (yesScript n) (yesScript n))).2.player1_ws.sent.countP
      isEnded = 1 := by
  have h := yes_run n [] [] none none
  have hmk : mkGame (yesScript n) (yesScript n) =
      ⟨⟨true, yesScript n, []⟩, ⟨true, yesScript n, []⟩, none, none, false⟩ := rfl
  rw [hmk, h]
  have hc1 := sessionLog_counts "player1" "Game started. You are Player 1" n
  have hc2 := sessionLog_counts "player2" "Game started. You are Player 2" n
  simp [hc1.1, hc1.2.1, hc1.2.2, hc2.1]

/-- C2 amended witness: the theorem applied at N = 0. -/
theorem claim_C2_witness :
    (start_game 1 (mkGame (yesScript 0) (yesScript 0))).1 = .ok () ∧
    (start_game 1 (mkGame (yesScript 0) (yesScript 0))).2.player1_ws.sent.countP
      isStart = 1 :=
  ⟨(claim_C2_amended 0).1, (claim_C2_amended 0).2.1⟩

/-- C4 counterexample: a payload that is not a valid JSON object makes
both receiving operations raise an uncaught exception (only
`ConnectionClosed` is caught), instead of returning a failure value. -/
theorem claim_C4_counterexample :
    (receive_move (mkSocket [.malformed]) none).1 = .error .jsonError ∧
    (receive_response (mkSocket [.malformed])).1 = .error .jsonError :=
  ⟨rfl, rfl⟩

/-- C4 amended: payloads that decode to a JSON object but fail enum
validation, and connections that close before a message arrives, are
treated as a failed collection (`False`) without raising, in both
`receive_move` and `receive_response`; but a payload that is not a valid
JSON object raises an uncaught exception through both operations. -/
theorem claim_C4_amended :
    (∀ (scr : List Payload) (snt : List SMsg) (stored : Option String),
      (receive_move ⟨false, scr, snt⟩ stored).1 = .ok false) ∧
    (∀ (snt : List SMsg) (stored : Option String),
      (receive_move ⟨true, [], snt⟩ stored).1 = .ok false) ∧
    (∀ (move rem : Option String) (rest : List Payload) (snt : List SMsg)
      (stored : Option String),
      move.elim false (fun s => s ∈ validMoves) = false →
      (receive_move ⟨true, .obj move rem :: rest, snt⟩ stored).1 = .ok false) ∧
    (∀ (scr : List Payload) (snt : List SMsg),
      (receive_response ⟨false, scr, snt⟩).1 = .ok false) ∧
    (∀ (snt : List SMsg), (receive_response ⟨true, [], snt⟩).1 = .ok false) ∧
    (∀ (mv rem : Option String) (rest : List Payload) (snt : List SMsg),
      rem ≠ some "yes" →
      (receive_response ⟨true, .obj mv rem :: rest, snt⟩).1 = .ok false) ∧
    (∀ (rest : List Payload) (snt : List SMsg) (stored : Option String),
      (receive_move ⟨true, .malformed :: rest, snt⟩ stored).1 = .error .jsonError) ∧
    (∀ (rest : List Payload) (snt : List SMsg),
      (receive_response ⟨true, .malformed :: rest, snt⟩).1 = .error .jsonError) := by
  refine ⟨?_, ?_, ?_, ?_, ?_, ?_, ?_, ?_⟩
  · intro scr snt stored; simp [receive_move, Socket.recv]
  · intro snt stored; simp [receive_move, Socket.recv]
  · intro move rem rest snt stored hm
    simp [receive_move, Socket.recv, Socket.send, hm]
  · intro scr snt; simp [receive_response, Socket.recv]
  · intro snt; simp [receive_response, Socket.recv]
  · intro mv rem rest snt hr; simp [receive_response, Socket.recv, hr]
  · intro rest snt stored; simp [receive_move, Socket.recv]
  · intro rest snt; simp [receive_response, Socket.recv]

/-- C4 amended witness: the theorem applied at the illegal move lizard. -/
theorem claim_C4_witness :
    (some "lizard").elim false (fun s => s ∈ validMoves) = false ∧
    (receive_move ⟨true, [.obj (some "lizard") none], []⟩ none).1 = .ok false :=
  ⟨by decide, claim_C4_amended.2.2.1 (some "lizard") none [] [] none (by decide)⟩

/-- C6 counterexample: when role A's connection closes before answering
the rematch prompt (so its answer is treated as no), the end broadcast
raises on role A's closed handle and role B — still open — receives no
end message at all, refuting that exactly one end message is sent to
each handle. -/
theorem claim_C6_counterexample :
    (ask_for_rematch 0 demoRematchClosed).1 = .error .connectionClosed ∧
    (ask_for_rematch 0 demoRematchClosed).2.player1_ws.sent = [.rematch] ∧
    (ask_for_rematch 0 demoRematchClosed).2.player2_ws.sent = [.rematch] := by
  refine ⟨?_, ?_, ?_⟩ <;>
    simp [ask_for_rematch, receive_response, broadcast, Socket.send, Socket.recv,
      demoRematchClosed, mkSocket]

/-- C6 amended: a closed connection or any response whose rematch field
differs from yes is treated as no; and when at least one answer is
treated as no while both handles deliver a response and stay open, the
session appends exactly the rematch prompt and one end message to each
handle's log and sends nothing further.  (When the non-yes answer stems
from a closed handle, the end broadcast raises and the surviving handle
receives no end message — see the counterexample.) -/
theorem claim_C6_amended :
    (∀ (scr : List Payload) (snt : List SMsg),
      (receive_response ⟨false, scr, snt⟩).1 = .ok false) ∧
    (∀ (snt : List SMsg), (receive_response ⟨true, [], snt⟩).1 = .ok false) ∧
    (∀ (mv rem : Option String) (rest : List Payload) (snt : List SMsg),
      rem ≠ some "yes" →
      (receive_response ⟨true, .obj mv rem :: rest, snt⟩).1 = .ok false) ∧
    (∀ (fuel : Nat) (st : GameState) (a1 a2 r1 r2 : Option String)
      (t1 t2 : List Payload),
      st.player1_ws.isOpen = true → st.player2_ws.isOpen = true →
      st.player1_ws.script = .obj a1 r1 :: t1 →
      st.player2_ws.script = .obj a2 r2 :: t2 →
      (r1 ≠ some "yes" ∨ r2 ≠ some "yes") →
      (ask_for_rematch fuel st).1 = .ok () ∧
      (ask_for_rematch fuel st).2.player1_ws.sent =
        st.player1_ws.sent ++ [.rematch, .ended "Game over."] ∧
      (ask_for_rematch fuel st).2.player2_ws.sent =
        st.player2_ws.sent ++ [.rematch, .ended "Game over."]) := by
  refine ⟨?_, ?_, ?_, ?_⟩
  · intro scr snt; simp [receive_response, Socket.recv]
  · intro snt; simp [receive_response, Socket.recv]
  · intro mv rem rest snt hr; simp [receive_response, Socket.recv, hr]
  · intro fuel st a1 a2 r1 r2 t1 t2 ho1 ho2 hs1 hs2 hno
    obtain ⟨⟨o1, scr1, snt1⟩, ⟨o2, scr2, snt2⟩, mv1, mv2, go⟩ := st
    simp only at ho1 ho2 hs1 hs2
    subst ho1 ho2 hs1 hs2
    by_cases c1 : r1 = some "yes" <;> by_cases c2 : r2 = some "yes"
    · exact absurd c1 (hno.resolve_right (by simpa using c2))
    · refine ⟨?_, ?_, ?_⟩ <;>
        simp [ask_for_rematch, receive_response, broadcast, Socket.send,
          Socket.recv, c1, c2]
    · refine ⟨?_, ?_, ?_⟩ <;>
        simp [ask_for_rematch, receive_response, broadcast, Socket.send,
          Socket.recv, c1, c2]
    · refine ⟨?_, ?_, ?_⟩ <;>
        simp [ask_for_rematch, receive_response, broadcast, Socket.send,
          Socket.recv, c1, c2]

/-- C6 amended witness: the theorem applied at a no/yes answer pair with
both handles open. -/
theorem claim_C6_witness :
    (ask_for_rematch 0 demoRematchNo).1 = .ok () ∧
    (ask_for_rematch 0 demoRematchNo).2.player1_ws.sent =
      demoRematchNo.player1_ws.sent ++ [.rematch, .ended "Game over."] ∧
    (ask_for_rematch 0 demoRematchNo).2.player2_ws.sent =
      demoRematchNo.player2_ws.sent ++ [.rematch, .ended "Game over."] :=
  claim_C6_amended.2.2.2 0 demoRematchNo none none (some "no") (some "yes")
    [] [] rfl rfl rfl rfl (Or.inl (by decide))

/-- C7: the matchmaking queue is strict FIFO — enqueueing three handles
and then pairing dequeues the first and then the second — and a handle
absent after removal (its connection closed while waiting, queue
membership being unique) is never dequeued by any later sequence of
enqueue/dequeue events. -/
theorem claim_C7 (h1 h2 h3 : Nat) :
    dequeue (enqueue (enqueue (enqueue [] h1) h2) h3) = some (h1, [h2, h3]) ∧
    dequeue [h2, h3] = some (h2, [h3]) ∧
    (∀ (q : List Nat) (h : Nat), q.Nodup →
      ∀ q1, Relation.ReflTransGen (QStep h) (remove_waiting q h) q1 →
        ∀ x q2, dequeue q1 = some (x, q2) → x ≠ h) := by
  refine ⟨rfl, rfl, ?_⟩
  intro q h hnd q1 hsteps x q2 hd
  have h0 : h ∉ remove_waiting q h := by
    unfold remove_waiting
    split
    · exact hnd.not_mem_erase
    · assumption
  intro hxh
  exact qsteps_preserve h0 hsteps (hxh ▸ dequeue_mem hd)

/-- C7 witness: the theorem applied at handles 1, 2, 3 and at the queue
with 1 waiting after 5 disconnected. -/
theorem claim_C7_witness :
    dequeue (enqueue (enqueue (enqueue [] 1) 2) 3) = some (1, [2, 3]) ∧ (1 : Nat) ≠ 5 :=
  ⟨(claim_C7 1 2 3).1,
   (claim_C7 1 2 3).2.2 [1, 5] 5 (by decide) [1] Relation.ReflTransGen.refl 1 [] rfl⟩

end RPS
